import Mathlib

/-
  Verification of packages/remix-dev/cli/commands.ts: the watch-mode build
  orchestrator with live-reload broadcast (the watch, dev, build commands and
  the purgeAppRequireCache helper).
-/

namespace Remix

/-- Modelled from the spec: BuildMode is defined in packages/remix-dev/build
(not part of this excerpt); the spec enumerates it as development and
production. -/
inductive BuildMode where
  | development
  | production
deriving DecidableEq, Repr

/-- Modelled from the spec: isBuildMode (from packages/remix-dev/build, not part
of this excerpt) recognizes exactly the BuildMode enumeration values; an absent
argument is not recognized. -/
def isBuildMode (modeArg : Option String) : Bool :=
  match modeArg with
  | some s => if s = "development" then true else if s = "production" then true else false
  | none => false

/-- Modelled from the spec: the value a recognized mode argument denotes. -/
def parseBuildMode (modeArg : Option String) : Option BuildMode :=
  match modeArg with
  | some s =>
    if s = "development" then some BuildMode.development
    else if s = "production" then some BuildMode.production
    else none
  | none => none

/-- Mode selection of the build command (commands.ts line 130): a recognized
mode argument is used, otherwise production. -/
def buildCommandMode (modeArg : Option String) : BuildMode :=
  (parseBuildMode modeArg).getD BuildMode.production

/-- Mode selection of the watch command (commands.ts line 175): a recognized
mode argument is used, otherwise development. -/
def watchCommandMode (modeArg : Option String) : BuildMode :=
  (parseBuildMode modeArg).getD BuildMode.development

/-- Mode selection of the dev command (commands.ts line 256): a recognized
mode argument is used, otherwise development. -/
def devCommandMode (modeArg : Option String) : BuildMode :=
  (parseBuildMode modeArg).getD BuildMode.development

/-- The process-wide module cache (require.cache): an association list from
module keys (absolute file paths) to loaded-module values, modelled by Nat. -/
abbrev ModuleCache := List (String × Nat)

/-- The JavaScript String.prototype.startsWith test used by the purge, modelled
over the character list of the strings. -/
def startsWithPath (key p : String) : Bool :=
  List.isPrefixOf p.toList key.toList

/-- purgeAppRequireCache (commands.ts lines 307-313): deletes every cache entry
whose key starts with buildPath, keeping all other entries. -/
def purgeAppRequireCache (buildPath : String) (cache : ModuleCache) : ModuleCache :=
  List.filter (fun kv => !(startsWithPath kv.1 buildPath)) cache

/-- The wire-level broadcast payload published on the live-reload channel. -/
inductive BroadcastEvent where
  | LOG (message : String)
  | RELOAD
deriving DecidableEq, Repr

/-- Minimal JSON string escaping performed by JSON.stringify on the message. -/
def jsonEscapeChar (c : Char) : String :=
  if c = '\\' then "\\\\" else if c = '"' then "\\\"" else String.singleton c

/-- Minimal JSON string escaping, extended to a whole string. -/
def jsonEscape (s : String) : String :=
  String.join (s.toList.map jsonEscapeChar)

/-- JSON.stringify of the event object sent by broadcast (commands.ts line
189), with keys in insertion order. -/
def encodeEvent : BroadcastEvent → String
  | BroadcastEvent.LOG m =>
      "\x7b\"type\":\"LOG\",\"message\":\"" ++ jsonEscape m ++ "\"\x7d"
  | BroadcastEvent.RELOAD => "\x7b\"type\":\"RELOAD\"\x7d"

/-- WebSocket readyState values of a client connection. -/
inductive ReadyState where
  | CONNECTING
  | OPEN
  | CLOSING
  | CLOSED
deriving DecidableEq, Repr

/-- One client connection of the WebSocket server, identified by a number. -/
structure Client where
  id : Nat
  readyState : ReadyState
deriving DecidableEq, Repr

/-- What happens to one client when a delayed broadcast delivery fires
(commands.ts lines 187-191): the event is sent if its readyState is OPEN and
it is skipped otherwise; there is no error and no retry branch in the code. -/
inductive DeliveryOutcome where
  | sent (payload : String)
  | skipped
deriving DecidableEq, Repr

/-- Per-client delivery of the body of broadcast (commands.ts lines 187-191). -/
def deliverToClient (event : BroadcastEvent) (c : Client) : DeliveryOutcome :=
  if c.readyState = ReadyState.OPEN then DeliveryOutcome.sent (encodeEvent event)
  else DeliveryOutcome.skipped

/-- The delayed delivery body of broadcast (commands.ts lines 186-192): the
forEach over wss.clients at the moment the timer fires, pairing each client
with its delivery outcome. -/
def broadcastDeliver (clients : List Client) (event : BroadcastEvent) :
    List (Nat × DeliveryOutcome) :=
  clients.map (fun c => (c.id, deliverToClient event c))

/-- A lifecycle hook invocation observed by watch (commands.ts lines 201-222).
The rebuildFinish duration and the file paths are carried as strings. -/
inductive HookEvent where
  | initialBuild
  | rebuildStart
  | rebuildFinish (duration : String)
  | fileCreated (file : String)
  | fileChanged (file : String)
  | fileDeleted (file : String)
deriving DecidableEq, Repr

/-- The log helper of watch (commands.ts lines 195-199): prefixes the message
with the disc emoji and publishes it as a LOG broadcast event. -/
def logEvent (m : String) : BroadcastEvent :=
  BroadcastEvent.LOG ("💿 " ++ m)

/-- The broadcast publishes made by each hook of watch (commands.ts lines
201-222), in call order. The rel parameter stands for the external
path.relative(process.cwd(), file) computation. onInitialBuild is forwarded
to the caller unchanged and publishes nothing. -/
def hookPublishes (rel : String → String) : HookEvent → List BroadcastEvent
  | HookEvent.initialBuild => []
  | HookEvent.rebuildStart => [logEvent "Rebuilding..."]
  | HookEvent.rebuildFinish d => [logEvent ("Rebuilt in " ++ d), BroadcastEvent.RELOAD]
  | HookEvent.fileCreated f => [logEvent ("File created: " ++ rel f)]
  | HookEvent.fileChanged f => [logEvent ("File changed: " ++ rel f)]
  | HookEvent.fileDeleted f => [logEvent ("File deleted: " ++ rel f)]

/-- The broadcast publishes of a whole sequence of hook invocations during a
watch session, in order. -/
def watchPublishes (rel : String → String) (hs : List HookEvent) : List BroadcastEvent :=
  hs.flatMap (hookPublishes rel)

/-- Whether a broadcast event is a LOG event. -/
def isLogEvent : BroadcastEvent → Bool
  | BroadcastEvent.LOG _ => true
  | BroadcastEvent.RELOAD => false

/-- Whether a broadcast event is a RELOAD event. -/
def isReloadEvent : BroadcastEvent → Bool
  | BroadcastEvent.LOG _ => false
  | BroadcastEvent.RELOAD => true

/-- Number of LOG publishes in a list of broadcast events. -/
def countLog (es : List BroadcastEvent) : Nat :=
  (es.filter isLogEvent).length

/-- Number of RELOAD publishes in a list of broadcast events. -/
def countReload (es : List BroadcastEvent) : Nat :=
  (es.filter isReloadEvent).length

/-- A step of the dev command request pipeline (commands.ts lines 268-274):
the middleware installed first purges the cache, then the createApp handler
dispatches the request. -/
inductive PipelineStep where
  | purgeStep (buildPath : String)
  | dispatch
deriving DecidableEq, Repr

/-- Request handling in the dev command (commands.ts lines 270-274): the
purge middleware runs first on every request, unconditionally, then next()
passes control to the app handler, which sees the purged cache. -/
def handleRequest (buildPath : String) (cache : ModuleCache) :
    List PipelineStep × ModuleCache :=
  ([PipelineStep.purgeStep buildPath, PipelineStep.dispatch],
   purgeAppRequireCache buildPath cache)

/-- Observable state of a watch session used by the shutdown sequence: whether
the WebSocket channel is open, whether the watcher is running, the files in the
assets output directory and whether the compiled server artifact exists. -/
structure WatchState where
  channelOpen : Bool
  watcherRunning : Bool
  outputDirFiles : List String
  artifactExists : Bool
deriving DecidableEq, Repr

/-- One step of the watch shutdown sequence (commands.ts lines 232-237). -/
inductive TeardownStep where
  | closeChannel
  | stopWatcher
  | emptyOutputDir
  | removeArtifact
deriving DecidableEq, Repr

/-- The watch shutdown sequence (commands.ts lines 232-237): wss.close(), then
await closeWatcher(), then emptyDirSync(assetsBuildDirectory), then
rmSync(serverBuildPath); returns the step trace in call order and the final
state. -/
def watchTeardown (s : WatchState) : List TeardownStep × WatchState :=
  let s1 := { s with channelOpen := false }
  let s2 := { s1 with watcherRunning := false }
  let s3 := { s2 with outputDirFiles := [] }
  let s4 := { s3 with artifactExists := false }
  ([TeardownStep.closeChannel, TeardownStep.stopWatcher,
    TeardownStep.emptyOutputDir, TeardownStep.removeArtifact], s4)

/-- The per-run configuration fields consumed by the commands (RemixConfig). -/
structure RemixConfig where
  rootDirectory : String
  assetsBuildDirectory : String
  serverBuildPath : String
  devServerPort : Nat
  devServerBroadcastDelay : Nat
  serverEntryPoint : Option String
deriving DecidableEq, Repr

/-- A concrete configuration whose custom server entry point is set, as in a
project with a server.js entry. -/
def customServerConfig : RemixConfig :=
  { rootDirectory := "/app",
    assetsBuildDirectory := "/app/public/build",
    serverBuildPath := "/app/build/index.js",
    devServerPort := 8002,
    devServerBroadcastDelay := 0,
    serverEntryPoint := some "server.js" }

/-- Observable startup effects of the dev command, in program order. -/
inductive DevEffect where
  | readConfigStep
  | loadEnvStep
  | getPortStep
  | createExpressApp
  | openWebSocketChannel
  | bindListener
deriving DecidableEq, Repr

/-- Startup of the dev command up to the invocation of watch (commands.ts lines
240-279): readConfig, loadEnv and getPort happen first; the custom-server check
then throws before the express app is created and before watch opens the
WebSocket channel; the listener is bound later still, only inside
onInitialBuild, so bindListener never appears in the startup trace. Returns
the effect trace and the error message when the check throws. -/
def devStartup (config : RemixConfig) : List DevEffect × Option String :=
  let pre := [DevEffect.readConfigStep, DevEffect.loadEnvStep, DevEffect.getPortStep]
  if config.serverEntryPoint.isSome then
    (pre, some "remix dev is not supported for custom servers.")
  else
    (pre ++ [DevEffect.createExpressApp, DevEffect.openWebSocketChannel], none)

/-- The server variable of the dev command (commands.ts line 276): null until
onInitialBuild binds the listener, then the bound port. -/
structure DevState where
  server : Option Nat
deriving DecidableEq, Repr

/-- The initial dev state (commands.ts line 276): let server = null. -/
def devInit : DevState := { server := none }

/-- Hook processing of the dev command (commands.ts lines 279-301): only
onInitialBuild assigns server = app.listen(port, onListen); every other hook
leaves the handle unchanged. -/
def devHandleHook (port : Nat) (s : DevState) (h : HookEvent) : DevState :=
  match h with
  | HookEvent.initialBuild => { s with server := some port }
  | _ => s

/-- The dev state after a sequence of hook invocations. -/
def devRun (port : Nat) (hs : List HookEvent) : DevState :=
  hs.foldl (devHandleHook port) devInit

/-- The outcome of the final close in dev (commands.ts line 303). -/
inductive CloseResult where
  | closedServer (port : Nat)
  | noop
deriving DecidableEq, Repr

/-- The finally block of dev (commands.ts lines 302-304): the optional
chaining in server!?.close() makes the close a no-op when the handle is null;
there is no exception path. -/
def devFinally (s : DevState) : CloseResult :=
  match s.server with
  | some p => CloseResult.closedServer p
  | none => CloseResult.noop

end Remix

namespace Remix

/-- LOG publishes distribute over concatenation of publish lists. -/
theorem countLog_append (a b : List BroadcastEvent) :
    countLog (a ++ b) = countLog a + countLog b := by
  unfold countLog
  rw [List.filter_append, List.length_append]

/-- A fold of dev hook processing over a sequence without the initial-build
hook leaves the state unchanged. -/
theorem devFold_no_initial (port : Nat) (s : DevState) (hs : List HookEvent)
    (hno : HookEvent.initialBuild ∉ hs) :
    hs.foldl (devHandleHook port) s = s := by
  induction hs generalizing s with
  | nil => rfl
  | cons h t ih =>
    have h1 : h ≠ HookEvent.initialBuild := by
      intro he
      exact hno (he ▸ List.mem_cons_self h t)
    have hstep : devHandleHook port s h = s := by
      cases h
      case initialBuild => exact absurd rfl h1
      all_goals rfl
    rw [List.foldl_cons, hstep]
    exact ih s (fun hm => hno (List.mem_cons_of_mem h hm))

/-- C4: the purge removes exactly the entries whose keys are rooted under the
build artifact path, leaves every other entry unchanged, and runs as the first
pipeline step before dispatch on every request. -/
theorem purge_scoped_and_runs_first (p : String) (cache : ModuleCache)
    (kv : String × Nat) (hkv : kv ∈ cache) :
    (handleRequest p cache).1 = [PipelineStep.purgeStep p, PipelineStep.dispatch] ∧
    (handleRequest p cache).2 = purgeAppRequireCache p cache ∧
    (startsWithPath kv.1 p = true → kv ∉ purgeAppRequireCache p cache) ∧
    (startsWithPath kv.1 p = false → kv ∈ purgeAppRequireCache p cache) ∧
    (∀ kv2 : String × Nat, kv2 ∈ purgeAppRequireCache p cache →
      kv2 ∈ cache ∧ startsWithPath kv2.1 p = false) := by
  refine ⟨rfl, rfl, ?_, ?_, ?_⟩
  · intro hstart hmem
    have := (List.mem_filter.mp hmem).2
    simp [hstart] at this
  · intro hstart
    exact List.mem_filter.mpr ⟨hkv, by simp [hstart]⟩
  · intro kv2 hmem
    have h1 := List.mem_filter.mp hmem
    refine ⟨h1.1, ?_⟩
    have := h1.2
    simpa using this

/-- Witness for C4 at a concrete cache and path. -/
theorem purge_scoped_and_runs_first_witness :
    ("/tmp/build/index.js", 1) ∉
      purgeAppRequireCache "/tmp/build" [("/tmp/build/index.js", 1), ("/other/mod.js", 2)] ∧
    ("/other/mod.js", 2) ∈
      purgeAppRequireCache "/tmp/build" [("/tmp/build/index.js", 1), ("/other/mod.js", 2)] := by
  have h1 := purge_scoped_and_runs_first "/tmp/build"
    [("/tmp/build/index.js", 1), ("/other/mod.js", 2)] ("/tmp/build/index.js", 1)
    (by decide)
  have h2 := purge_scoped_and_runs_first "/tmp/build"
    [("/tmp/build/index.js", 1), ("/other/mod.js", 2)] ("/other/mod.js", 2)
    (by decide)
  exact ⟨h1.2.2.1 (by decide), h2.2.2.2.1 (by decide)⟩

/-- C8: the purge is idempotent, and every entry not rooted under the artifact
path keeps its exact multiplicity in the cache. -/
theorem purge_idempotent (p : String) (cache : ModuleCache) (kv : String × Nat)
    (hkv : startsWithPath kv.1 p = false) :
    purgeAppRequireCache p (purgeAppRequireCache p cache) = purgeAppRequireCache p cache ∧
    List.count kv (purgeAppRequireCache p cache) = List.count kv cache := by
  constructor
  · unfold purgeAppRequireCache
    rw [List.filter_filter]
    apply List.filter_congr
    intro x _
    simp
  · unfold purgeAppRequireCache
    induction cache with
    | nil => rfl
    | cons hd t ih =>
      by_cases h : startsWithPath hd.1 p
      · have hne : hd ≠ kv := by
          intro he
          rw [he, hkv] at h
          exact Bool.false_ne_true h
        simp only [List.filter_cons, h]
        rw [List.count_cons_of_ne (fun he => hne he.symm)]
        exact ih
      · simp only [List.filter_cons, h]
        simp only [Bool.not_false, if_true]
        rw [List.count_cons, List.count_cons, ih]

/-- Witness for C8 at a concrete cache and path. -/
theorem purge_idempotent_witness :
    purgeAppRequireCache "/tmp/build"
        (purgeAppRequireCache "/tmp/build" [("/tmp/build/index.js", 1), ("/other/mod.js", 2)]) =
      purgeAppRequireCache "/tmp/build" [("/tmp/build/index.js", 1), ("/other/mod.js", 2)] ∧
    List.count ("/other/mod.js", 2)
        (purgeAppRequireCache "/tmp/build" [("/tmp/build/index.js", 1), ("/other/mod.js", 2)]) =
      List.count ("/other/mod.js", 2) [("/tmp/build/index.js", 1), ("/other/mod.js", 2)] :=
  purge_idempotent "/tmp/build" [("/tmp/build/index.js", 1), ("/other/mod.js", 2)]
    ("/other/mod.js", 2) (by decide)

/-- C10: when the mode argument is absent or unrecognized, build defaults to
production while watch and dev default to development. -/
theorem default_build_modes (modeArg : Option String)
    (h : isBuildMode modeArg = false) :
    buildCommandMode modeArg = BuildMode.production ∧
    watchCommandMode modeArg = BuildMode.development ∧
    devCommandMode modeArg = BuildMode.development := by
  have hparse : parseBuildMode modeArg = none := by
    cases modeArg with
    | none => rfl
    | some s =>
      unfold isBuildMode at h
      unfold parseBuildMode
      by_cases h1 : s = "development"
      · simp [h1] at h
      · by_cases h2 : s = "production"
        · simp [h1, h2] at h
        · simp [h1, h2]
  unfold buildCommandMode watchCommandMode devCommandMode
  rw [hparse]
  exact ⟨rfl, rfl, rfl⟩

/-- Witness for C10 at a concrete unrecognized mode argument. -/
theorem default_build_modes_witness :
    buildCommandMode (some "staging") = BuildMode.production ∧
    watchCommandMode (some "staging") = BuildMode.development ∧
    devCommandMode (some "staging") = BuildMode.development :=
  default_build_modes (some "staging") (by decide)

/-- C1: every rebuild-finish invocation publishes the Rebuilt LOG first and
RELOAD second, in that call order; and any hook invocation that publishes a
RELOAD is a rebuild-finish invocation whose publish list is exactly that LOG
followed by RELOAD, so a RELOAD is never published without the preceding
Rebuilt LOG in the same invocation. -/
theorem rebuildFinish_log_before_reload (rel : String → String) (d : String)
    (h : HookEvent) (hmem : BroadcastEvent.RELOAD ∈ hookPublishes rel h) :
    hookPublishes rel (HookEvent.rebuildFinish d) =
      [BroadcastEvent.LOG ("💿 " ++ ("Rebuilt in " ++ d)), BroadcastEvent.RELOAD] ∧
    ∃ d2, h = HookEvent.rebuildFinish d2 ∧
      hookPublishes rel h =
        [BroadcastEvent.LOG ("💿 " ++ ("Rebuilt in " ++ d2)), BroadcastEvent.RELOAD] := by
  refine ⟨rfl, ?_⟩
  cases h with
  | rebuildFinish d2 => exact ⟨d2, rfl, rfl⟩
  | initialBuild => simp [hookPublishes] at hmem
  | rebuildStart => simp [hookPublishes, logEvent] at hmem
  | fileCreated f => simp [hookPublishes, logEvent] at hmem
  | fileChanged f => simp [hookPublishes, logEvent] at hmem
  | fileDeleted f => simp [hookPublishes, logEvent] at hmem

/-- Witness for C1 at a concrete rebuild-finish invocation. -/
theorem rebuildFinish_log_before_reload_witness :
    BroadcastEvent.RELOAD ∈ hookPublishes id (HookEvent.rebuildFinish "120ms") ∧
    hookPublishes id (HookEvent.rebuildFinish "120ms") =
      [BroadcastEvent.LOG ("💿 " ++ ("Rebuilt in " ++ "120ms")), BroadcastEvent.RELOAD] :=
  ⟨by decide,
   (rebuildFinish_log_before_reload id "120ms" (HookEvent.rebuildFinish "120ms")
     (by decide)).1⟩

/-- C2: watch shutdown performs close channel, stop watcher, empty output
directory, remove artifact, in exactly that order, and afterwards the output
directory is empty and the artifact is absent; it holds from any prior state,
so for any shutdown trigger timing. -/
theorem watch_teardown_order_and_result (s : WatchState) :
    (watchTeardown s).1 = [TeardownStep.closeChannel, TeardownStep.stopWatcher,
      TeardownStep.emptyOutputDir, TeardownStep.removeArtifact] ∧
    (watchTeardown s).2.outputDirFiles = [] ∧
    (watchTeardown s).2.artifactExists = false ∧
    (watchTeardown s).2.channelOpen = false ∧
    (watchTeardown s).2.watcherRunning = false :=
  ⟨rfl, rfl, rfl, rfl, rfl⟩

/-- C3: a configuration with a custom server entry point makes dev throw with
the unsupported-configuration message, before the express app is created,
before watch opens the WebSocket channel, and before any listener is bound. -/
theorem dev_custom_server_fails_fast (config : RemixConfig) (e : String)
    (hcs : config.serverEntryPoint = some e) :
    (devStartup config).2 = some "remix dev is not supported for custom servers." ∧
    DevEffect.createExpressApp ∉ (devStartup config).1 ∧
    DevEffect.openWebSocketChannel ∉ (devStartup config).1 ∧
    DevEffect.bindListener ∉ (devStartup config).1 := by
  have h2 : devStartup config =
      ([DevEffect.readConfigStep, DevEffect.loadEnvStep, DevEffect.getPortStep],
        some "remix dev is not supported for custom servers.") := by
    unfold devStartup
    rw [hcs]
    rfl
  refine ⟨by rw [h2], ?_, ?_, ?_⟩ <;> rw [h2] <;> decide

/-- Witness for C3 at a concrete configuration with a custom server entry. -/
theorem dev_custom_server_fails_fast_witness :
    (devStartup customServerConfig).2 =
      some "remix dev is not supported for custom servers." :=
  (dev_custom_server_fails_fast customServerConfig "server.js" rfl).1

/-- C5: at the moment a delayed delivery fires, the JSON-encoded event is sent
exactly to the clients whose readyState is OPEN; every other client is skipped
with outcome skipped, which has no error and no retry. -/
theorem delivery_only_to_open (clients : List Client) (event : BroadcastEvent)
    (c : Client) (hc : c ∈ clients) (hne : c.readyState ≠ ReadyState.OPEN) :
    deliverToClient event c = DeliveryOutcome.skipped ∧
    (c.id, DeliveryOutcome.skipped) ∈ broadcastDeliver clients event ∧
    (∀ c2 : Client, c2 ∈ clients → c2.readyState = ReadyState.OPEN →
      (c2.id, DeliveryOutcome.sent (encodeEvent event)) ∈ broadcastDeliver clients event) ∧
    (∀ r : Nat × DeliveryOutcome, r ∈ broadcastDeliver clients event →
      (∃ payload, r.2 = DeliveryOutcome.sent payload) →
      ∃ c3, c3 ∈ clients ∧ c3.readyState = ReadyState.OPEN ∧ c3.id = r.1 ∧
        r.2 = DeliveryOutcome.sent (encodeEvent event)) := by
  have hskip : deliverToClient event c = DeliveryOutcome.skipped := by
    unfold deliverToClient
    rw [if_neg hne]
  refine ⟨hskip, ?_, ?_, ?_⟩
  · unfold broadcastDeliver
    exact List.mem_map.mpr ⟨c, hc, by rw [hskip]⟩
  · intro c2 hc2 hopen
    have hsent : deliverToClient event c2 = DeliveryOutcome.sent (encodeEvent event) := by
      unfold deliverToClient
      rw [if_pos hopen]
    unfold broadcastDeliver
    exact List.mem_map.mpr ⟨c2, hc2, by rw [hsent]⟩
  · intro r hr hpay
    unfold broadcastDeliver at hr
    obtain ⟨c3, hc3, heq⟩ := List.mem_map.mp hr
    obtain ⟨payload, hp⟩ := hpay
    by_cases hopen : c3.readyState = ReadyState.OPEN
    · refine ⟨c3, hc3, hopen, ?_, ?_⟩
      · rw [← heq]
      · rw [← heq]
        unfold deliverToClient
        rw [if_pos hopen]
    · exfalso
      have : deliverToClient event c3 = DeliveryOutcome.skipped := by
        unfold deliverToClient
        rw [if_neg hopen]
      rw [← heq] at hp
      simp only [this] at hp
      exact DeliveryOutcome.noConfusion hp

/-- Witness for C5 at a concrete client set with one open and one closed. -/
theorem delivery_only_to_open_witness :
    deliverToClient (BroadcastEvent.RELOAD)
      { id := 2, readyState := ReadyState.CLOSED } = DeliveryOutcome.skipped ∧
    (1, DeliveryOutcome.sent (encodeEvent BroadcastEvent.RELOAD)) ∈
      broadcastDeliver [{ id := 1, readyState := ReadyState.OPEN },
        { id := 2, readyState := ReadyState.CLOSED }] BroadcastEvent.RELOAD :=
  ⟨(delivery_only_to_open [{ id := 1, readyState := ReadyState.OPEN },
      { id := 2, readyState := ReadyState.CLOSED }] BroadcastEvent.RELOAD
      { id := 2, readyState := ReadyState.CLOSED } (by decide) (by decide)).1,
   (delivery_only_to_open [{ id := 1, readyState := ReadyState.OPEN },
      { id := 2, readyState := ReadyState.CLOSED }] BroadcastEvent.RELOAD
      { id := 2, readyState := ReadyState.CLOSED } (by decide) (by decide)).2.2.1
     { id := 1, readyState := ReadyState.OPEN } (by decide) rfl⟩

/-- C6 counterexample: the initial-build lifecycle hook publishes nothing, so
it does not trigger exactly one LOG publish. -/
theorem initialBuild_publishes_nothing :
    hookPublishes id HookEvent.initialBuild = [] ∧
    countLog (hookPublishes id HookEvent.initialBuild) ≠ 1 :=
  ⟨rfl, by decide⟩

/-- C6 amended: every lifecycle hook other than initial build triggers exactly
one LOG publish, the initial-build hook triggers none, a sequence of N
file-change events produces exactly N LOG publishes, and only a rebuild-finish
hook additionally contributes a RELOAD, exactly one. -/
theorem hook_publish_counts (rel : String → String) (h : HookEvent)
    (files : List String) (hne : h ≠ HookEvent.initialBuild) :
    countLog (hookPublishes rel h) = 1 ∧
    countLog (hookPublishes rel HookEvent.initialBuild) = 0 ∧
    countLog (watchPublishes rel (files.map HookEvent.fileChanged)) = files.length ∧
    countReload (hookPublishes rel h) =
      (match h with | HookEvent.rebuildFinish _ => 1 | _ => 0) := by
  refine ⟨?_, rfl, ?_, ?_⟩
  · cases h
    case initialBuild => exact absurd rfl hne
    all_goals rfl
  · induction files with
    | nil => rfl
    | cons f t ih =>
      unfold watchPublishes at ih ⊢
      rw [List.map_cons, List.flatMap_cons, countLog_append, ih]
      have h1 : countLog (hookPublishes rel (HookEvent.fileChanged f)) = 1 := rfl
      rw [h1, List.length_cons]
      omega
  · cases h
    all_goals rfl

/-- Witness for C6 amended at a concrete hook and file sequence. -/
theorem hook_publish_counts_witness :
    countLog (hookPublishes id HookEvent.rebuildStart) = 1 ∧
    countLog (watchPublishes id (["a.tsx", "b.tsx"].map HookEvent.fileChanged)) = 2 :=
  ⟨(hook_publish_counts id HookEvent.rebuildStart ["a.tsx", "b.tsx"] (by decide)).1,
   (hook_publish_counts id HookEvent.rebuildStart ["a.tsx", "b.tsx"] (by decide)).2.2.1⟩

/-- C7: the dev server handle stays null across any hook sequence that does
not contain the initial-build hook, and a non-null handle implies the
initial-build hook occurred, so the listener is bound only inside
onInitialBuild and never before the first build completes. -/
theorem server_null_before_initial_build (port : Nat) (hs : List HookEvent)
    (hno : HookEvent.initialBuild ∉ hs) :
    (devRun port hs).server = none ∧
    (∀ hs2 : List HookEvent, (devRun port hs2).server ≠ none →
      HookEvent.initialBuild ∈ hs2) ∧
    (devRun port (hs ++ [HookEvent.initialBuild])).server = some port := by
  refine ⟨?_, ?_, ?_⟩
  · unfold devRun
    rw [devFold_no_initial port devInit hs hno]
    rfl
  · intro hs2 hne2
    by_contra hnotmem
    apply hne2
    unfold devRun
    rw [devFold_no_initial port devInit hs2 hnotmem]
    rfl
  · unfold devRun
    rw [List.foldl_append, devFold_no_initial port devInit hs hno]
    rfl

/-- Witness for C7 at a concrete hook sequence without the initial build. -/
theorem server_null_before_initial_build_witness :
    (devRun 3000 [HookEvent.rebuildStart, HookEvent.fileChanged "app/root.tsx"]).server
      = none :=
  (server_null_before_initial_build 3000
    [HookEvent.rebuildStart, HookEvent.fileChanged "app/root.tsx"] (by decide)).1

/-- C9: when shutdown is reached while the server handle is still null, the
final close of dev is a no-op: the optional chaining yields noop and there is
no exception outcome. -/
theorem close_noop_when_never_opened (s : DevState) (h : s.server = none) :
    devFinally s = CloseResult.noop := by
  unfold devFinally
  rw [h]

/-- Witness for C9 at the initial dev state, whose handle is null. -/
theorem close_noop_when_never_opened_witness :
    devFinally devInit = CloseResult.noop :=
  close_noop_when_never_opened devInit rfl

end Remix
